import Mathlib

/-!
Shallow embedding of the `fluxlogic-vectors` repository: three near-identical
stateless HTTP services (`src/vector1_app.py`, `src/vector2_app.py`,
`src/vector3_app.py`), each exposing a capability handler, a usage-billing
operation and a listing-publication operation.

Modelling conventions:
- Python strings are Lean `String`s (worked on through `String.toList`);
  arguments that may be non-strings in Python (`isinstance(x, str)` checks
  in the source) are `Option String`, with `none` standing for any
  non-string value.
- The `units` argument of `create_usage_charge` may be any Python value;
  the source only distinguishes `int` instances (which include `bool`),
  so it is modelled by the inductive `PyUnits`.
- Monetary amounts are exact rationals; `round(x, 4)` is round-half-even
  to 4 decimal places (`pyRound4`).  For the integer unit counts and the
  two-decimal prices appearing in the code, the rational results coincide
  with CPython's float results.
- `str.strip()` is modelled over the ASCII whitespace characters
  (Python's `string.whitespace`), and `str.lower()` by ASCII lowering,
  which is exact on all characters relevant to the `"bearer "` prefix.
- Process configuration (`API_AUTH_TOKEN`, Stripe availability, the
  outcome of the one Stripe call) is passed explicitly: `API_AUTH_TOKEN`
  as a `String` (`""` = unset), Stripe as `StripeCfg`.
-/

/-- ASCII whitespace, the characters Python's `str.strip()` removes
(restricted to `string.whitespace`). -/
def pyIsSpace (c : Char) : Bool :=
  c = ' ' || c = '\t' || c = '\n' || c = '\r' || c = '\x0b' || c = '\x0c'

/-- Python `str.strip()`: drop whitespace from both ends. -/
def pyStrip (l : List Char) : List Char :=
  ((l.dropWhile pyIsSpace).reverse.dropWhile pyIsSpace).reverse

/-- Boolean prefix test on character lists: `listStartsWith l p` is
Python's `l.startswith(p)`. -/
def listStartsWith : List Char → List Char → Bool
  | _, [] => true
  | [], _ :: _ => false
  | c :: cs, d :: ds => c == d && listStartsWith cs ds

/-- Boolean substring test: `listContains l sub` is Python's `sub in l`. -/
def listContains : List Char → List Char → Bool
  | [], sub => sub.isEmpty
  | c :: cs, sub => listStartsWith (c :: cs) sub || listContains cs sub

/-- Python `sub in hay` on strings. -/
def strContains (hay sub : String) : Bool :=
  listContains hay.toList sub.toList

/-- Guard of the scheme-stripping loop in `_normalize_auth_token`
(vectors 2 and 3): `token.lower().startswith("bearer ")`. -/
def hasBearer (l : List Char) : Bool :=
  listStartsWith (l.map Char.toLower) "bearer ".toList

/-- Fuel-indexed unfolding of the `while token.lower().startswith("bearer "):`
loop of `_normalize_auth_token` (vector2_app.py lines 38-39, vector3_app.py
lines 37-38): each firing needs 7 leading characters, so fuel equal to the
list length always suffices (`hasBearer_stripBearerFuel` below certifies the
exit condition holds at the result). -/
def stripBearerFuel : Nat → List Char → List Char
  | 0, token => token
  | fuel + 1, token =>
    if hasBearer token = true then stripBearerFuel fuel (pyStrip (token.drop 7))
    else token

/-- Embeds `_normalize_auth_token` of vector2_app.py (lines 33-40):
strip whitespace, then repeatedly strip a case-insensitive `"Bearer "`
prefix, stripping whitespace after each removal; a non-string
(`none`) normalizes to the empty token. -/
def V2.normalize_auth_token : Option String → List Char
  | none => []
  | some s => stripBearerFuel (pyStrip s.toList).length (pyStrip s.toList)

/-- Embeds `_normalize_auth_token` of vector3_app.py (lines 32-39),
textually identical to the vector-2 normalizer. -/
def V3.normalize_auth_token : Option String → List Char
  | none => []
  | some s => stripBearerFuel (pyStrip s.toList).length (pyStrip s.toList)

/-- Embeds `_is_authorized` of vector1_app.py (lines 32-37): the credential
must be a string literally starting with `"Bearer "`; with no configured
secret any such credential is accepted, otherwise the whole header must
equal `"Bearer " + API_AUTH_TOKEN`. -/
def V1.is_authorized (api_auth_token : String) : Option String → Bool
  | none => false
  | some t =>
    if listStartsWith t.toList "Bearer ".toList = false then false
    else if api_auth_token = "" then true
    else decide (t = "Bearer " ++ api_auth_token)

/-- Embeds `_is_authorized` of vector2_app.py (lines 42-48). -/
def V2.is_authorized (api_auth_token : String) (auth_token : Option String) : Bool :=
  let token := V2.normalize_auth_token auth_token
  if token = [] then false
  else if api_auth_token = "" then true
  else decide (token = api_auth_token.toList)

/-- Embeds `_is_authorized` of vector3_app.py (lines 41-47). -/
def V3.is_authorized (api_auth_token : String) (auth_token : Option String) : Bool :=
  let token := V3.normalize_auth_token auth_token
  if token = [] then false
  else if api_auth_token = "" then true
  else decide (token = api_auth_token.toList)

/-- Embeds `_is_https_url` (vector1_app.py lines 39-40, identically in the
other two files): a string value starting with `"https://"`. -/
def is_https_url : Option String → Bool
  | none => false
  | some s => listStartsWith s.toList "https://".toList

/-- Python value passed as the `units` argument of `create_usage_charge`.
The source only distinguishes `isinstance(units, int)` (true for `bool`,
whose values equal 0 and 1) and the value's integer ordering, so any
non-`int` Python value collapses to `other`. -/
inductive PyUnits where
  | int (n : Int)
  | bool (b : Bool)
  | other
deriving DecidableEq, Repr

/-- Python's `isinstance(units, int)`: true for `int` and `bool` values. -/
def PyUnits.isInstanceInt : PyUnits → Bool
  | .int _ => true
  | .bool _ => true
  | .other => false

/-- Numeric value of an `int` instance (`True == 1`, `False == 0`);
unused on `other`, which never reaches arithmetic in the source. -/
def PyUnits.toInt : PyUnits → Int
  | .int n => n
  | .bool b => if b then 1 else 0
  | .other => 0

/-- Floor of a rational, computed on the normalized numerator/denominator. -/
def ratFloor (x : ℚ) : ℤ := Int.fdiv x.num x.den

/-- Round-half-even of a rational to an integer, the rounding of Python's
builtin `round`. -/
def roundHalfEven (x : ℚ) : ℤ :=
  let f := ratFloor x
  let r := x - (f : ℚ)
  if r < 1 / 2 then f
  else if 1 / 2 < r then f + 1
  else if f % 2 = 0 then f else f + 1

/-- Python's `round(x, 4)` over exact rationals. -/
def pyRound4 (x : ℚ) : ℚ := (roundHalfEven (x * 10000) : ℚ) / 10000

/-- Charge record built by `create_usage_charge`; `payment_intent_id` is
`none` until the Stripe call attaches one. -/
structure Charge where
  agent_id : String
  service_id : String
  units : PyUnits
  amount_usd : ℚ
  status : String
  payment_intent_id : Option String
deriving DecidableEq, Repr

/-- Response of `create_usage_charge`. -/
structure ChargeResult where
  success : Bool
  charge : Option Charge
  error : Option String
deriving DecidableEq, Repr

/-- Stripe-side configuration and (when consulted) the outcome of the one
`stripe.PaymentIntent.create` call: `configured` is
`STRIPE_AVAILABLE and STRIPE_SECRET_KEY`, `create_intent` is `some id` when
the call returns an intent with id `id` and `none` when it raises. -/
structure StripeCfg where
  configured : Bool
  create_intent : Option String
deriving DecidableEq, Repr

/-- Common body of the three `create_usage_charge` functions
(vector1_app.py lines 75-105, vector2_app.py lines 68-98, vector3_app.py
lines 63-93), which differ only in the authorizer, the allow-list and the
unit price, all passed as parameters. -/
def create_usage_charge_gen (is_auth : Option String → Bool)
    (allowed : List String) (price : ℚ) (st : StripeCfg)
    (agent_id : String) (service_id : Option String) (units : PyUnits)
    (auth_token : Option String) : ChargeResult :=
  if is_auth auth_token = false then
    ⟨false, none, some "UNAUTHORIZED"⟩
  else
    match service_id with
    | none => ⟨false, none, some "UNKNOWN_SERVICE"⟩
    | some sid =>
      if allowed.contains sid = false then ⟨false, none, some "UNKNOWN_SERVICE"⟩
      else if units.isInstanceInt = false ∨ units.toInt ≤ 0 then
        ⟨false, none, some "INVALID_UNITS"⟩
      else
        let amount_usd : ℚ := pyRound4 ((units.toInt : ℚ) * price)
        let charge : Charge := ⟨agent_id, sid, units, amount_usd, "pending", none⟩
        if st.configured = true then
          match st.create_intent with
          | some pid =>
            ⟨true, some { charge with status := "billed", payment_intent_id := some pid }, none⟩
          | none => ⟨false, none, some "STRIPE_ERROR"⟩
        else ⟨true, some charge, none⟩

/-- Unit price of vector 1 (vector1_app.py line 25). -/
def V1.PRICE_PER_UNIT : ℚ := 0.02

/-- Unit price of vector 2 (vector2_app.py line 26). -/
def V2.PRICE_PER_UNIT : ℚ := 0.05

/-- Unit price of vector 3 (vector3_app.py line 25). -/
def V3.PRICE_PER_UNIT : ℚ := 0.03

/-- Allow-list of vector 1 (vector1_app.py line 30). -/
def V1.ALLOWED_SERVICES : List String :=
  ["extract_markdown", "create_usage_charge", "publish_listing"]

/-- Allow-list of vector 2 (vector2_app.py line 31). -/
def V2.ALLOWED_SERVICES : List String :=
  ["run_skill", "create_usage_charge", "publish_listing"]

/-- Allow-list of vector 3 (vector3_app.py line 30). -/
def V3.ALLOWED_SERVICES : List String :=
  ["generate_llm_txt", "create_usage_charge", "publish_listing"]

/-- Embeds `create_usage_charge` of vector1_app.py (lines 75-105). -/
def V1.create_usage_charge (api_auth_token : String) (st : StripeCfg)
    (agent_id : String) (service_id : Option String) (units : PyUnits)
    (auth_token : Option String) : ChargeResult :=
  create_usage_charge_gen (V1.is_authorized api_auth_token) V1.ALLOWED_SERVICES
    V1.PRICE_PER_UNIT st agent_id service_id units auth_token

/-- Embeds `create_usage_charge` of vector2_app.py (lines 68-98). -/
def V2.create_usage_charge (api_auth_token : String) (st : StripeCfg)
    (agent_id : String) (service_id : Option String) (units : PyUnits)
    (auth_token : Option String) : ChargeResult :=
  create_usage_charge_gen (V2.is_authorized api_auth_token) V2.ALLOWED_SERVICES
    V2.PRICE_PER_UNIT st agent_id service_id units auth_token

/-- Embeds `create_usage_charge` of vector3_app.py (lines 63-93). -/
def V3.create_usage_charge (api_auth_token : String) (st : StripeCfg)
    (agent_id : String) (service_id : Option String) (units : PyUnits)
    (auth_token : Option String) : ChargeResult :=
  create_usage_charge_gen (V3.is_authorized api_auth_token) V3.ALLOWED_SERVICES
    V3.PRICE_PER_UNIT st agent_id service_id units auth_token

/-- Listing record echoed by `publish_listing`. -/
structure Listing where
  service_id : String
  openapi_url : String
  llm_txt_url : String
deriving DecidableEq, Repr

/-- Response of `publish_listing`. -/
structure ListingResult where
  success : Bool
  listing : Option Listing
  error : Option String
deriving DecidableEq, Repr

/-- Embeds `publish_listing` (vector1_app.py lines 107-120, identical in
vector2_app.py lines 100-113 and vector3_app.py lines 95-108): the service
identifier must be a string that is non-empty after stripping, both URLs
must pass the `https://` prefix check, and on success the listing is
echoed back. -/
def publish_listing : Option String → Option String → Option String → ListingResult
  | none, _, _ => ⟨false, none, some "INVALID_SERVICE"⟩
  | some sid, openapi_url, llm_txt_url =>
    if pyStrip sid.toList = [] then ⟨false, none, some "INVALID_SERVICE"⟩
    else if is_https_url openapi_url = false ∨ is_https_url llm_txt_url = false then
      ⟨false, none, some "INVALID_URL"⟩
    else
      match openapi_url, llm_txt_url with
      | some ou, some lu => ⟨true, some ⟨sid, ou, lu⟩, none⟩
      | _, _ => ⟨false, none, some "INVALID_URL"⟩

/-- Truthiness of the `render_js` / `include_links` entries of the
`options` dict of `extract_markdown`; `none` models a non-dict `options`
value (both flags default to false). -/
structure ExtractOptions where
  render_js : Bool
  include_links : Bool
deriving DecidableEq, Repr

/-- Metadata record of a successful `extract_markdown`. -/
structure ExtractMeta where
  source_url : String
  title : Option String
  token_count : Nat
  word_count : Nat
deriving DecidableEq, Repr

/-- Response of `extract_markdown`. -/
structure ExtractResult where
  success : Bool
  markdown : Option String
  metadata : Option ExtractMeta
  error : Option String
deriving DecidableEq, Repr

/-- Number of whitespace-separated words, Python's `len(s.split())`:
count of maximal runs of non-whitespace characters.  The boolean argument
records whether the previous character was inside a word. -/
def countWordsAux : List Char → Bool → Nat
  | [], _ => 0
  | c :: cs, inWord =>
    if pyIsSpace c then countWordsAux cs false
    else (if inWord then 0 else 1) + countWordsAux cs true

/-- Embeds `extract_markdown` of vector1_app.py (lines 42-73). -/
def V1.extract_markdown (api_auth_token : String) (url : Option String)
    (options : Option ExtractOptions) (auth_token : Option String) : ExtractResult :=
  if V1.is_authorized api_auth_token auth_token = false then
    ⟨false, none, none, some "UNAUTHORIZED"⟩
  else
    match url with
    | none => ⟨false, none, none, some "INVALID_URL"⟩
    | some u =>
      if listStartsWith u.toList "https://".toList = false then
        ⟨false, none, none, some "INVALID_URL"⟩
      else if strContains u "site-que-falla" = true then
        ⟨false, none, none, some "EXTRACTION_FAILED"⟩
      else
        let render_js := match options with | some o => o.render_js | none => false
        let include_links := match options with | some o => o.include_links | none => false
        let title : Option String :=
          if strContains u "example.com" = true then some "Example Site" else none
        let base0 : String := "# " ++ title.getD "Document" ++ "\n\nExtracted content."
        let base1 : String := if render_js then base0 ++ " Rendered." else base0
        let base2 : String := if include_links then base1 ++ " Source: " ++ u else base1
        let token_count : Nat := max 1 (countWordsAux base2.toList false)
        ⟨true, some base2, some ⟨u, title, token_count, token_count⟩, none⟩

/-- Stub result of a successful `run_skill`. -/
structure SkillResult where
  tables : Nat
  rows : Nat
deriving DecidableEq, Repr

/-- Response of `run_skill`. -/
structure RunSkillResult where
  success : Bool
  result : Option SkillResult
  error : Option String
deriving DecidableEq, Repr

/-- Characters of the base64 alphabet proper (excluding padding). -/
def isB64Char (c : Char) : Bool :=
  ('A' ≤ c && c ≤ 'Z') || ('a' ≤ c && c ≤ 'z') || ('0' ≤ c && c ≤ '9') ||
    c = '+' || c = '/'

/-- Whether CPython's `base64.b64decode(s, validate=True)` succeeds:
the string must match `[A-Za-z0-9+/]*={0,2}` (the `validate=True` screen),
and the lenient `binascii.a2b_base64` padding rule must accept the split
into `d` data characters and `p` trailing pads — it succeeds when
`d % 4 = 0` (stray pads ignored), when `d % 4 = 2` with both pads present,
or when `d % 4 = 3` with at least one pad; `d % 4 = 1` always raises. -/
def b64decode_validate_ok (l : List Char) : Bool :=
  let body := l.takeWhile isB64Char
  let rest := l.drop body.length
  (rest.all (fun c => c = '=') && decide (rest.length ≤ 2)) &&
    (body.length % 4 == 0 || (body.length % 4 == 2 && rest.length == 2) ||
      (body.length % 4 == 3 && decide (1 ≤ rest.length)))

/-- Embeds `run_skill` of vector2_app.py (lines 53-66). -/
def V2.run_skill (api_auth_token : String) (skill_id : Option String)
    (payload_b64 : Option String) (auth_token : Option String) : RunSkillResult :=
  if V2.is_authorized api_auth_token auth_token = false then
    ⟨false, none, some "UNAUTHORIZED"⟩
  else if skill_id ≠ some "pdf_financials" then
    ⟨false, none, some "UNKNOWN_SKILL"⟩
  else
    match payload_b64 with
    | none => ⟨false, none, some "INVALID_PAYLOAD"⟩
    | some p =>
      if p = "" then ⟨false, none, some "INVALID_PAYLOAD"⟩
      else if strContains p "BAD" = true then ⟨false, none, some "SKILL_FAILED"⟩
      else if b64decode_validate_ok p.toList = false then
        ⟨false, none, some "INVALID_PAYLOAD"⟩
      else ⟨true, some ⟨1, 10⟩, none⟩

/-- Response of `generate_llm_txt`. -/
structure LlmTxtResult where
  success : Bool
  llm_txt : Option String
  llm_full_txt : Option String
  error : Option String
deriving DecidableEq, Repr

/-- Embeds `generate_llm_txt` of vector3_app.py (lines 52-61). -/
def V3.generate_llm_txt (api_auth_token : String) (domain : Option String)
    (auth_token : Option String) : LlmTxtResult :=
  if V3.is_authorized api_auth_token auth_token = false then
    ⟨false, none, none, some "UNAUTHORIZED"⟩
  else
    match domain with
    | none => ⟨false, none, none, some "INVALID_DOMAIN"⟩
    | some d =>
      if strContains d "http" = true ∨ strContains d "/" = true ∨ strContains d " " = true then
        ⟨false, none, none, some "INVALID_DOMAIN"⟩
      else if strContains d "site-que-falla" = true then
        ⟨false, none, none, some "CRAWL_FAILED"⟩
      else
        ⟨true, some ("site: " ++ d ++ "\nsummary: agentic-ready"),
          some ("site: " ++ d ++ "\npaths:\n- /\n- /docs"), none⟩

/-- Floor of an integer cast to `ℚ` is the integer itself. -/
theorem ratFloor_intCast (k : ℤ) : ratFloor (k : ℚ) = k := by
  have h : ratFloor (k : ℚ) = Int.fdiv k 1 := rfl
  rw [h]
  cases k with
  | ofNat m =>
    cases m with
    | zero => rfl
    | succ n =>
      show Int.ofNat (Nat.succ n / 1) = Int.ofNat (Nat.succ n)
      rw [Nat.div_one]
  | negSucc m =>
    show Int.negSucc (m / 1) = Int.negSucc m
    rw [Nat.div_one]

/-- Round-half-even fixes integers. -/
theorem roundHalfEven_intCast (k : ℤ) : roundHalfEven (k : ℚ) = k := by
  simp only [roundHalfEven, ratFloor_intCast, sub_self]
  norm_num

/-- Rounding to 4 decimal places fixes any rational that already has at
most 4 decimal places. -/
theorem pyRound4_of_mul_eq (x : ℚ) (k : ℤ) (hx : x * 10000 = (k : ℚ)) :
    pyRound4 x = x := by
  unfold pyRound4
  rw [hx, roundHalfEven_intCast]
  rw [div_eq_iff (by norm_num : (10000 : ℚ) ≠ 0)]
  exact hx.symm

/-- Billing result when the credential is rejected. -/
theorem create_usage_charge_gen_unauthorized (is_auth : Option String → Bool)
    (allowed : List String) (price : ℚ) (st : StripeCfg) (agent : String)
    (sid : Option String) (units : PyUnits) (tok : Option String)
    (h : is_auth tok = false) :
    create_usage_charge_gen is_auth allowed price st agent sid units tok =
      ⟨false, none, some "UNAUTHORIZED"⟩ := by
  unfold create_usage_charge_gen
  rw [h]
  simp

/-- Billing result when the request is authorized but the service
identifier is not a string or not in the allow-list. -/
theorem create_usage_charge_gen_unknown (is_auth : Option String → Bool)
    (allowed : List String) (price : ℚ) (st : StripeCfg) (agent : String)
    (sid : Option String) (units : PyUnits) (tok : Option String)
    (hauth : is_auth tok = true)
    (hsid : ∀ s, sid = some s → allowed.contains s = false) :
    create_usage_charge_gen is_auth allowed price st agent sid units tok =
      ⟨false, none, some "UNKNOWN_SERVICE"⟩ := by
  cases sid with
  | none =>
    simp only [create_usage_charge_gen, hauth, Bool.true_eq_false, if_false]
  | some s =>
    simp only [create_usage_charge_gen, hauth, Bool.true_eq_false, if_false,
      hsid s rfl, eq_self_iff_true, if_true]

/-- Billing result when the request is authorized, the service is allowed,
but the unit count is not a positive integer. -/
theorem create_usage_charge_gen_invalid_units (is_auth : Option String → Bool)
    (allowed : List String) (price : ℚ) (st : StripeCfg) (agent : String)
    (s : String) (units : PyUnits) (tok : Option String)
    (hauth : is_auth tok = true) (hsvc : allowed.contains s = true)
    (hu : units.isInstanceInt = false ∨ units.toInt ≤ 0) :
    create_usage_charge_gen is_auth allowed price st agent (some s) units tok =
      ⟨false, none, some "INVALID_UNITS"⟩ := by
  simp only [create_usage_charge_gen, hauth, Bool.true_eq_false, if_false, hsvc,
    Bool.true_eq_false, if_pos hu]

/-- Billing result on a fully validated request, as a function of the
Stripe configuration. -/
theorem create_usage_charge_gen_validated (is_auth : Option String → Bool)
    (allowed : List String) (price : ℚ) (st : StripeCfg) (agent : String)
    (s : String) (units : PyUnits) (tok : Option String)
    (hauth : is_auth tok = true) (hsvc : allowed.contains s = true)
    (hinst : units.isInstanceInt = true) (hpos : 0 < units.toInt) :
    create_usage_charge_gen is_auth allowed price st agent (some s) units tok =
      (if st.configured = true then
        match st.create_intent with
        | some pid =>
          ⟨true, some ⟨agent, s, units, pyRound4 ((units.toInt : ℚ) * price),
            "billed", some pid⟩, none⟩
        | none => ⟨false, none, some "STRIPE_ERROR"⟩
      else
        ⟨true, some ⟨agent, s, units, pyRound4 ((units.toInt : ℚ) * price),
          "pending", none⟩, none⟩) := by
  have hcond : ¬(units.isInstanceInt = false ∨ units.toInt ≤ 0) := by
    rintro (h1 | h2)
    · rw [hinst] at h1
      exact Bool.noConfusion h1
    · omega
  simp only [create_usage_charge_gen, hauth, Bool.true_eq_false, if_false, hsvc,
    if_neg hcond]

/-- Whenever the biller returns a charge record, its amount is the rounded
product of the unit count and the unit price. -/
theorem amount_of_create_usage_charge_gen (is_auth : Option String → Bool)
    (allowed : List String) (price : ℚ) (st : StripeCfg) (agent : String)
    (sid : Option String) (units : PyUnits) (tok : Option String) (c : Charge)
    (hc : (create_usage_charge_gen is_auth allowed price st agent sid units tok).charge
      = some c) :
    c.amount_usd = pyRound4 ((units.toInt : ℚ) * price) := by
  unfold create_usage_charge_gen at hc
  repeat' split at hc
  all_goals simp_all
  all_goals rw [← hc]

/-- C1: for every positive integer unit count `u`, `create_usage_charge`
computes the charge amount as `round(u * price, 4)` with the service's
fixed unit price (0.02 for vector 1, 0.05 for vector 2, 0.03 for
vector 3), and the rounded amounts at `u ∈ {1, 10, 333}` are exactly the
pinned values 0.02/0.2/6.66, 0.05/0.5/16.65 and 0.03/0.3/9.99. -/
theorem C1_charge_amount :
    ((∀ api st agent sid tok (u : ℤ) (c : Charge), 0 < u →
        (V1.create_usage_charge api st agent sid (.int u) tok).charge = some c →
        c.amount_usd = pyRound4 ((u : ℚ) * V1.PRICE_PER_UNIT)) ∧
     (∀ api st agent sid tok (u : ℤ) (c : Charge), 0 < u →
        (V2.create_usage_charge api st agent sid (.int u) tok).charge = some c →
        c.amount_usd = pyRound4 ((u : ℚ) * V2.PRICE_PER_UNIT)) ∧
     (∀ api st agent sid tok (u : ℤ) (c : Charge), 0 < u →
        (V3.create_usage_charge api st agent sid (.int u) tok).charge = some c →
        c.amount_usd = pyRound4 ((u : ℚ) * V3.PRICE_PER_UNIT))) ∧
    (pyRound4 ((1 : ℚ) * V1.PRICE_PER_UNIT) = 0.02 ∧
     pyRound4 ((10 : ℚ) * V1.PRICE_PER_UNIT) = 0.2 ∧
     pyRound4 ((333 : ℚ) * V1.PRICE_PER_UNIT) = 6.66) ∧
    (pyRound4 ((1 : ℚ) * V2.PRICE_PER_UNIT) = 0.05 ∧
     pyRound4 ((10 : ℚ) * V2.PRICE_PER_UNIT) = 0.5 ∧
     pyRound4 ((333 : ℚ) * V2.PRICE_PER_UNIT) = 16.65) ∧
    (pyRound4 ((1 : ℚ) * V3.PRICE_PER_UNIT) = 0.03 ∧
     pyRound4 ((10 : ℚ) * V3.PRICE_PER_UNIT) = 0.3 ∧
     pyRound4 ((333 : ℚ) * V3.PRICE_PER_UNIT) = 9.99) := by
  refine ⟨⟨?_, ?_, ?_⟩, ⟨?_, ?_, ?_⟩, ⟨?_, ?_, ?_⟩, ⟨?_, ?_, ?_⟩⟩
  · intro api st agent sid tok u c _ hc
    exact amount_of_create_usage_charge_gen (V1.is_authorized api) V1.ALLOWED_SERVICES
      V1.PRICE_PER_UNIT st agent sid (.int u) tok c hc
  · intro api st agent sid tok u c _ hc
    exact amount_of_create_usage_charge_gen (V2.is_authorized api) V2.ALLOWED_SERVICES
      V2.PRICE_PER_UNIT st agent sid (.int u) tok c hc
  · intro api st agent sid tok u c _ hc
    exact amount_of_create_usage_charge_gen (V3.is_authorized api) V3.ALLOWED_SERVICES
      V3.PRICE_PER_UNIT st agent sid (.int u) tok c hc
  · rw [show (1 : ℚ) * V1.PRICE_PER_UNIT = 0.02 by norm_num [V1.PRICE_PER_UNIT]]
    exact pyRound4_of_mul_eq _ 200 (by norm_num)
  · rw [show (10 : ℚ) * V1.PRICE_PER_UNIT = 0.2 by norm_num [V1.PRICE_PER_UNIT]]
    exact pyRound4_of_mul_eq _ 2000 (by norm_num)
  · rw [show (333 : ℚ) * V1.PRICE_PER_UNIT = 6.66 by norm_num [V1.PRICE_PER_UNIT]]
    exact pyRound4_of_mul_eq _ 66600 (by norm_num)
  · rw [show (1 : ℚ) * V2.PRICE_PER_UNIT = 0.05 by norm_num [V2.PRICE_PER_UNIT]]
    exact pyRound4_of_mul_eq _ 500 (by norm_num)
  · rw [show (10 : ℚ) * V2.PRICE_PER_UNIT = 0.5 by norm_num [V2.PRICE_PER_UNIT]]
    exact pyRound4_of_mul_eq _ 5000 (by norm_num)
  · rw [show (333 : ℚ) * V2.PRICE_PER_UNIT = 16.65 by norm_num [V2.PRICE_PER_UNIT]]
    exact pyRound4_of_mul_eq _ 166500 (by norm_num)
  · rw [show (1 : ℚ) * V3.PRICE_PER_UNIT = 0.03 by norm_num [V3.PRICE_PER_UNIT]]
    exact pyRound4_of_mul_eq _ 300 (by norm_num)
  · rw [show (10 : ℚ) * V3.PRICE_PER_UNIT = 0.3 by norm_num [V3.PRICE_PER_UNIT]]
    exact pyRound4_of_mul_eq _ 3000 (by norm_num)
  · rw [show (333 : ℚ) * V3.PRICE_PER_UNIT = 9.99 by norm_num [V3.PRICE_PER_UNIT]]
    exact pyRound4_of_mul_eq _ 99900 (by norm_num)

/-- Witness for C1: a concrete charge of 333 units on vector 1. -/
theorem C1_charge_amount_witness :
    (0 : ℤ) < 333 ∧
    (V1.create_usage_charge "" ⟨false, none⟩ "agent-1" (some "create_usage_charge")
        (.int 333) (some "Bearer x")).charge =
      some ⟨"agent-1", "create_usage_charge", .int 333,
        pyRound4 (((PyUnits.int 333).toInt : ℚ) * V1.PRICE_PER_UNIT), "pending", none⟩ ∧
    (Charge.mk "agent-1" "create_usage_charge" (.int 333)
        (pyRound4 (((PyUnits.int 333).toInt : ℚ) * V1.PRICE_PER_UNIT)) "pending"
        none).amount_usd =
      pyRound4 ((333 : ℚ) * V1.PRICE_PER_UNIT) :=
  ⟨by decide, rfl,
    C1_charge_amount.1.1 "" ⟨false, none⟩ "agent-1" (some "create_usage_charge")
      (some "Bearer x") 333 _ (by decide) rfl⟩

/-- A successful prefix test needs the candidate prefix to be no longer
than the list. -/
theorem listStartsWith_length : ∀ (a b : List Char),
    listStartsWith a b = true → b.length ≤ a.length := by
  intro a b
  induction b generalizing a with
  | nil => intro _; simp
  | cons d ds ih =>
    intro h
    cases a with
    | nil => exact absurd h (by simp [listStartsWith])
    | cons c cs =>
      have h' : listStartsWith cs ds = true := by
        simp [listStartsWith] at h
        exact h.2
      have := ih cs h'
      simp
      omega

/-- A list satisfying the `"bearer "` guard has at least 7 characters. -/
theorem hasBearer_length (l : List Char) (h : hasBearer l = true) : 7 ≤ l.length := by
  have h1 := listStartsWith_length (l.map Char.toLower) "bearer ".toList h
  rw [List.length_map] at h1
  have h2 : ("bearer ".toList).length = 7 := by decide
  omega

/-- Dropping a prefix never lengthens a list. -/
theorem dropWhile_length_le (p : Char → Bool) (l : List Char) :
    (l.dropWhile p).length ≤ l.length := by
  induction l with
  | nil => simp
  | cons c cs ih =>
    by_cases h : p c
    · simp only [List.dropWhile_cons, h, if_true, List.length_cons]
      omega
    · simp [List.dropWhile_cons, h]

/-- Python's `strip` never lengthens a list. -/
theorem pyStrip_length_le (l : List Char) : (pyStrip l).length ≤ l.length := by
  unfold pyStrip
  rw [List.length_reverse]
  calc ((l.dropWhile pyIsSpace).reverse.dropWhile pyIsSpace).length
      ≤ (l.dropWhile pyIsSpace).reverse.length := dropWhile_length_le _ _
    _ = (l.dropWhile pyIsSpace).length := List.length_reverse _
    _ ≤ l.length := dropWhile_length_le _ _

/-- `dropWhile` is idempotent. -/
theorem dropWhile_dropWhile (p : Char → Bool) (l : List Char) :
    (l.dropWhile p).dropWhile p = l.dropWhile p := by
  induction l with
  | nil => rfl
  | cons c cs ih =>
    by_cases h : p c
    · simp only [List.dropWhile_cons, h, if_true]
      exact ih
    · simp [List.dropWhile_cons, h]

/-- `dropWhile` removes an initial segment of the list. -/
theorem dropWhile_eq_append (p : Char → Bool) :
    ∀ l : List Char, ∃ t, l = t ++ l.dropWhile p := by
  intro l
  induction l with
  | nil => exact ⟨[], rfl⟩
  | cons c cs ih =>
    by_cases h : p c
    · obtain ⟨t, ht⟩ := ih
      refine ⟨c :: t, ?_⟩
      simp only [List.dropWhile_cons, h, if_true]
      rw [List.cons_append, ← ht]
    · exact ⟨[], by simp [List.dropWhile_cons, h]⟩

/-- If `dropWhile` fixes a compound list, it fixes its first part. -/
theorem dropWhile_of_append_self (p : Char → Bool) (X r : List Char)
    (h : (X ++ r).dropWhile p = X ++ r) : X.dropWhile p = X := by
  cases X with
  | nil => rfl
  | cons c cs =>
    have hc : p c = false := by
      by_contra hc
      have hc' : p c = true := by simpa using hc
      have h1 : ((c :: cs) ++ r).dropWhile p = (cs ++ r).dropWhile p := by
        simp [List.dropWhile_cons, hc']
      have h2 := dropWhile_length_le p (cs ++ r)
      rw [h1] at h
      have h3 := congrArg List.length h
      simp at h2 h3
      omega
    simp [List.dropWhile_cons, hc]

/-- A list whose two ends are already free of whitespace is fixed by
`pyStrip`. -/
theorem pyStrip_of_parts (B : List Char) (h1 : B.dropWhile pyIsSpace = B)
    (h2 : B.reverse.dropWhile pyIsSpace = B.reverse) : pyStrip B = B := by
  unfold pyStrip
  rw [h1, h2, List.reverse_reverse]

/-- Python's `strip` is idempotent. -/
theorem pyStrip_idem (l : List Char) : pyStrip (pyStrip l) = pyStrip l := by
  apply pyStrip_of_parts
  · obtain ⟨t, ht⟩ := dropWhile_eq_append pyIsSpace (l.dropWhile pyIsSpace).reverse
    apply dropWhile_of_append_self pyIsSpace (pyStrip l) t.reverse
    have h := congrArg List.reverse ht
    rw [List.reverse_reverse, List.reverse_append] at h
    rw [show pyStrip l = ((l.dropWhile pyIsSpace).reverse.dropWhile pyIsSpace).reverse from rfl]
    rw [← h]
    exact dropWhile_dropWhile pyIsSpace l
  · rw [show (pyStrip l).reverse = (l.dropWhile pyIsSpace).reverse.dropWhile pyIsSpace from by
      unfold pyStrip
      rw [List.reverse_reverse]]
    exact dropWhile_dropWhile pyIsSpace (l.dropWhile pyIsSpace).reverse

/-- With fuel at least the list length, the stripping loop always reaches
its exit condition: the result no longer has the `"bearer "` prefix.
This certifies that the fuel in `normalize_auth_token` suffices to model
the unbounded `while` loop of the source. -/
theorem hasBearer_stripBearerFuel : ∀ (fuel : Nat) (l : List Char), l.length ≤ fuel →
    hasBearer (stripBearerFuel fuel l) = false := by
  intro fuel
  induction fuel with
  | zero =>
    intro l hl
    have hnil : l = [] := List.eq_nil_of_length_eq_zero (Nat.le_zero.mp hl)
    subst hnil
    decide
  | succ f ih =>
    intro l hl
    by_cases hb : hasBearer l = true
    · have h7 := hasBearer_length l hb
      have hstep : stripBearerFuel (f + 1) l = stripBearerFuel f (pyStrip (l.drop 7)) := by
        simp [stripBearerFuel, hb]
      rw [hstep]
      apply ih
      have hdl : (l.drop 7).length = l.length - 7 := List.length_drop _ _
      have hps := pyStrip_length_le (l.drop 7)
      omega
    · have hb' : hasBearer l = false := by simpa using hb
      have hstep : stripBearerFuel (f + 1) l = l := by simp [stripBearerFuel, hb']
      rw [hstep]
      exact hb'

/-- A list already free of the `"bearer "` prefix is fixed by the loop,
for any fuel. -/
theorem stripBearerFuel_of_exit (l : List Char) (h : hasBearer l = false) :
    ∀ fuel, stripBearerFuel fuel l = l := by
  intro fuel
  cases fuel with
  | zero => rfl
  | succ f => simp [stripBearerFuel, h]

/-- The loop preserves the whitespace-free invariant of its input. -/
theorem stripBearerFuel_stripped : ∀ (fuel : Nat) (l : List Char), pyStrip l = l →
    pyStrip (stripBearerFuel fuel l) = stripBearerFuel fuel l := by
  intro fuel
  induction fuel with
  | zero => intro l h; exact h
  | succ f ih =>
    intro l h
    by_cases hb : hasBearer l = true
    · have hstep : stripBearerFuel (f + 1) l = stripBearerFuel f (pyStrip (l.drop 7)) := by
        simp [stripBearerFuel, hb]
      rw [hstep]
      exact ih _ (pyStrip_idem _)
    · have hb' : hasBearer l = false := by simpa using hb
      have hstep : stripBearerFuel (f + 1) l = l := by simp [stripBearerFuel, hb']
      rw [hstep]
      exact h

/-- Re-running strip-then-loop on an already stripped, already
prefix-free token is the identity. -/
theorem normalizeCore_idem (r : List Char) (h1 : pyStrip r = r)
    (h2 : hasBearer r = false) :
    stripBearerFuel (pyStrip r).length (pyStrip r) = r := by
  rw [h1]
  exact stripBearerFuel_of_exit r h2 _

/-- C7: for the services that strip the scheme prefix repeatedly (vectors
2 and 3), credential normalization is idempotent, and repeated
case-insensitive `"Bearer "` prefixes normalize away:
`"Bearer Bearer Bearer x"` normalizes identically to `"x"`. -/
theorem C7_normalize_idempotent :
    (∀ t : Option String,
      V2.normalize_auth_token (some ⟨V2.normalize_auth_token t⟩) =
        V2.normalize_auth_token t) ∧
    (∀ t : Option String,
      V3.normalize_auth_token (some ⟨V3.normalize_auth_token t⟩) =
        V3.normalize_auth_token t) ∧
    V2.normalize_auth_token (some "Bearer Bearer Bearer x") =
      V2.normalize_auth_token (some "x") ∧
    V3.normalize_auth_token (some "Bearer Bearer Bearer x") =
      V3.normalize_auth_token (some "x") := by
  refine ⟨?_, ?_, by decide, by decide⟩
  · intro t
    cases t with
    | none => rfl
    | some s =>
      exact normalizeCore_idem _ (stripBearerFuel_stripped _ _ (pyStrip_idem _))
        (hasBearer_stripBearerFuel _ _ (le_refl _))
  · intro t
    cases t with
    | none => rfl
    | some s =>
      exact normalizeCore_idem _ (stripBearerFuel_stripped _ _ (pyStrip_idem _))
        (hasBearer_stripBearerFuel _ _ (le_refl _))

/-- A string has an empty character list exactly when it is empty. -/
theorem string_toList_eq_nil_iff (s : String) : s.toList = [] ↔ s = "" := by
  constructor
  · intro h
    cases s with
    | mk data =>
      have hd : data = [] := h
      subst hd
      rfl
  · intro h
    subst h
    rfl

/-- Characterization of the vector-2 authorizer in terms of the
normalized credential. -/
theorem V2_is_authorized_iff (api : String) (tok : Option String) :
    V2.is_authorized api tok = true ↔
      ((api = "" ∧ V2.normalize_auth_token tok ≠ []) ∨
       (api ≠ "" ∧ V2.normalize_auth_token tok = api.toList)) := by
  simp only [V2.is_authorized]
  by_cases h1 : V2.normalize_auth_token tok = []
  · rw [if_pos h1]
    simp only [Bool.false_eq_true, false_iff]
    rintro (⟨_, hne⟩ | ⟨hne, heq⟩)
    · exact hne h1
    · exact hne ((string_toList_eq_nil_iff api).mp (by rw [← heq]; exact h1))
  · rw [if_neg h1]
    by_cases h2 : api = ""
    · rw [if_pos h2]
      constructor
      · intro _
        exact Or.inl ⟨h2, h1⟩
      · intro _
        rfl
    · rw [if_neg h2, decide_eq_true_iff]
      constructor
      · intro h
        exact Or.inr ⟨h2, h⟩
      · rintro (⟨he, _⟩ | ⟨_, h⟩)
        · exact absurd he h2
        · exact h

/-- Characterization of the vector-3 authorizer in terms of the
normalized credential. -/
theorem V3_is_authorized_iff (api : String) (tok : Option String) :
    V3.is_authorized api tok = true ↔
      ((api = "" ∧ V3.normalize_auth_token tok ≠ []) ∨
       (api ≠ "" ∧ V3.normalize_auth_token tok = api.toList)) := by
  simp only [V3.is_authorized]
  by_cases h1 : V3.normalize_auth_token tok = []
  · rw [if_pos h1]
    simp only [Bool.false_eq_true, false_iff]
    rintro (⟨_, hne⟩ | ⟨hne, heq⟩)
    · exact hne h1
    · exact hne ((string_toList_eq_nil_iff api).mp (by rw [← heq]; exact h1))
  · rw [if_neg h1]
    by_cases h2 : api = ""
    · rw [if_pos h2]
      constructor
      · intro _
        exact Or.inl ⟨h2, h1⟩
      · intro _
        rfl
    · rw [if_neg h2, decide_eq_true_iff]
      constructor
      · intro h
        exact Or.inr ⟨h2, h⟩
      · rintro (⟨he, _⟩ | ⟨_, h⟩)
        · exact absurd he h2
        · exact h

/-- Characterization of the vector-1 authorizer: a literal `"Bearer "`
prefix is mandatory, and with a configured secret the whole header must
equal `"Bearer "` followed by the secret. -/
theorem V1_is_authorized_some_iff (api t : String) :
    V1.is_authorized api (some t) = true ↔
      (listStartsWith t.toList "Bearer ".toList = true ∧
        (api = "" ∨ t = "Bearer " ++ api)) := by
  simp only [V1.is_authorized]
  by_cases h1 : listStartsWith t.toList "Bearer ".toList = false
  · rw [if_pos h1]
    simp only [Bool.false_eq_true, false_iff]
    rintro ⟨hp, _⟩
    rw [h1] at hp
    exact Bool.noConfusion hp
  · have h1' : listStartsWith t.toList "Bearer ".toList = true := by simpa using h1
    rw [if_neg h1]
    by_cases h2 : api = ""
    · rw [if_pos h2]
      constructor
      · intro _
        exact ⟨h1', Or.inl h2⟩
      · intro _
        rfl
    · rw [if_neg h2, decide_eq_true_iff]
      constructor
      · intro h
        exact ⟨h1', Or.inr h⟩
      · rintro ⟨_, (he | he)⟩
        · exact absurd he h2
        · exact he

/-- C2 (amended): for vectors 2 and 3 the authorizer accepts exactly the
claimed condition on the normalized credential — with no configured
secret any non-empty normalized credential, otherwise exact equality with
the secret.  Vector 1 diverges: it requires the literal `"Bearer "`
prefix on the raw header, accepts `"Bearer "` with an empty remainder
when no secret is configured, and rejects bare tokens. -/
theorem C2_authorizer_characterization :
    (∀ (api : String) (tok : Option String),
      V2.is_authorized api tok = true ↔
        ((api = "" ∧ V2.normalize_auth_token tok ≠ []) ∨
         (api ≠ "" ∧ V2.normalize_auth_token tok = api.toList))) ∧
    (∀ (api : String) (tok : Option String),
      V3.is_authorized api tok = true ↔
        ((api = "" ∧ V3.normalize_auth_token tok ≠ []) ∨
         (api ≠ "" ∧ V3.normalize_auth_token tok = api.toList))) ∧
    (∀ (api t : String),
      V1.is_authorized api (some t) = true ↔
        (listStartsWith t.toList "Bearer ".toList = true ∧
          (api = "" ∨ t = "Bearer " ++ api))) ∧
    (∀ api : String, V1.is_authorized api none = false) :=
  ⟨V2_is_authorized_iff, V3_is_authorized_iff, V1_is_authorized_some_iff,
    fun _ => rfl⟩

/-- C2 counterexample: with no secret configured, the credential `"x"`
normalizes to the non-empty token `"x"`, yet vector 1's authorizer
rejects it, refuting the claimed equivalence for every service. -/
theorem C2_counterexample :
    V2.normalize_auth_token (some "x") = ['x'] ∧
    (['x'] : List Char) ≠ [] ∧
    V1.is_authorized "" (some "x") = false := by
  refine ⟨by decide, by decide, by decide⟩

/-- C3 (amended): for every authorized request whose service identifier is
not a string or not in the service's allow-list, `create_usage_charge`
returns `UNKNOWN_SERVICE` with a null charge; with an invalid credential
the authorization check fires first instead. -/
theorem C3_unknown_service_when_authorized :
    (∀ (api : String) (st : StripeCfg) (agent : String) (sid : Option String)
        (units : PyUnits) (tok : Option String),
      V1.is_authorized api tok = true →
      (∀ s, sid = some s → V1.ALLOWED_SERVICES.contains s = false) →
      V1.create_usage_charge api st agent sid units tok =
        ⟨false, none, some "UNKNOWN_SERVICE"⟩) ∧
    (∀ (api : String) (st : StripeCfg) (agent : String) (sid : Option String)
        (units : PyUnits) (tok : Option String),
      V2.is_authorized api tok = true →
      (∀ s, sid = some s → V2.ALLOWED_SERVICES.contains s = false) →
      V2.create_usage_charge api st agent sid units tok =
        ⟨false, none, some "UNKNOWN_SERVICE"⟩) ∧
    (∀ (api : String) (st : StripeCfg) (agent : String) (sid : Option String)
        (units : PyUnits) (tok : Option String),
      V3.is_authorized api tok = true →
      (∀ s, sid = some s → V3.ALLOWED_SERVICES.contains s = false) →
      V3.create_usage_charge api st agent sid units tok =
        ⟨false, none, some "UNKNOWN_SERVICE"⟩) := by
  refine ⟨?_, ?_, ?_⟩ <;>
  · intro api st agent sid units tok hauth hsid
    exact create_usage_charge_gen_unknown _ _ _ _ _ _ _ _ hauth hsid

/-- C3 counterexample: an unauthorized request naming a service outside
the allow-list returns `UNAUTHORIZED`, not `UNKNOWN_SERVICE`, so the
allow-list error does not apply regardless of credential validity. -/
theorem C3_counterexample :
    V1.ALLOWED_SERVICES.contains "not_a_service" = false ∧
    V1.is_authorized "" none = false ∧
    V1.create_usage_charge "" ⟨false, none⟩ "agent-1" (some "not_a_service")
        (.int 1) none =
      ⟨false, none, some "UNAUTHORIZED"⟩ :=
  ⟨by decide, by decide, by decide⟩

/-- Witness for C3: an authorized request on an unknown service. -/
theorem C3_unknown_service_witness :
    V1.create_usage_charge "" ⟨false, none⟩ "agent-1" (some "nope") (.int 1)
        (some "Bearer x") =
      ⟨false, none, some "UNKNOWN_SERVICE"⟩ :=
  C3_unknown_service_when_authorized.1 "" ⟨false, none⟩ "agent-1" (some "nope")
    (.int 1) (some "Bearer x") (by decide)
    (fun s hs => by
      cases hs
      decide)

/-- C4: on an authorized, validated charge request, a configured provider
whose call fails yields `success = false`, a null charge and
`STRIPE_ERROR`; a successful provider call yields a `billed` charge
carrying the provider's identifier; with no provider configured the
charge is returned `pending` with `success = true`. -/
theorem C4_provider_outcomes :
    (∀ (api : String) (st : StripeCfg) (agent s : String) (units : PyUnits)
        (tok : Option String),
      V1.is_authorized api tok = true →
      V1.ALLOWED_SERVICES.contains s = true →
      units.isInstanceInt = true → 0 < units.toInt →
      ((st.configured = true → st.create_intent = none →
          V1.create_usage_charge api st agent (some s) units tok =
            ⟨false, none, some "STRIPE_ERROR"⟩) ∧
       (∀ pid, st.configured = true → st.create_intent = some pid →
          V1.create_usage_charge api st agent (some s) units tok =
            ⟨true, some ⟨agent, s, units,
              pyRound4 ((units.toInt : ℚ) * V1.PRICE_PER_UNIT), "billed",
              some pid⟩, none⟩) ∧
       (st.configured = false →
          V1.create_usage_charge api st agent (some s) units tok =
            ⟨true, some ⟨agent, s, units,
              pyRound4 ((units.toInt : ℚ) * V1.PRICE_PER_UNIT), "pending",
              none⟩, none⟩))) ∧
    (∀ (api : String) (st : StripeCfg) (agent s : String) (units : PyUnits)
        (tok : Option String),
      V2.is_authorized api tok = true →
      V2.ALLOWED_SERVICES.contains s = true →
      units.isInstanceInt = true → 0 < units.toInt →
      ((st.configured = true → st.create_intent = none →
          V2.create_usage_charge api st agent (some s) units tok =
            ⟨false, none, some "STRIPE_ERROR"⟩) ∧
       (∀ pid, st.configured = true → st.create_intent = some pid →
          V2.create_usage_charge api st agent (some s) units tok =
            ⟨true, some ⟨agent, s, units,
              pyRound4 ((units.toInt : ℚ) * V2.PRICE_PER_UNIT), "billed",
              some pid⟩, none⟩) ∧
       (st.configured = false →
          V2.create_usage_charge api st agent (some s) units tok =
            ⟨true, some ⟨agent, s, units,
              pyRound4 ((units.toInt : ℚ) * V2.PRICE_PER_UNIT), "pending",
              none⟩, none⟩))) ∧
    (∀ (api : String) (st : StripeCfg) (agent s : String) (units : PyUnits)
        (tok : Option String),
      V3.is_authorized api tok = true →
      V3.ALLOWED_SERVICES.contains s = true →
      units.isInstanceInt = true → 0 < units.toInt →
      ((st.configured = true → st.create_intent = none →
          V3.create_usage_charge api st agent (some s) units tok =
            ⟨false, none, some "STRIPE_ERROR"⟩) ∧
       (∀ pid, st.configured = true → st.create_intent = some pid →
          V3.create_usage_charge api st agent (some s) units tok =
            ⟨true, some ⟨agent, s, units,
              pyRound4 ((units.toInt : ℚ) * V3.PRICE_PER_UNIT), "billed",
              some pid⟩, none⟩) ∧
       (st.configured = false →
          V3.create_usage_charge api st agent (some s) units tok =
            ⟨true, some ⟨agent, s, units,
              pyRound4 ((units.toInt : ℚ) * V3.PRICE_PER_UNIT), "pending",
              none⟩, none⟩))) := by
  refine ⟨?_, ?_, ?_⟩
  · intro api st agent s units tok hauth hsvc hinst hpos
    have h1 : V1.create_usage_charge api st agent (some s) units tok =
        (if st.configured = true then
          match st.create_intent with
          | some pid =>
            ⟨true, some ⟨agent, s, units,
              pyRound4 ((units.toInt : ℚ) * V1.PRICE_PER_UNIT), "billed",
              some pid⟩, none⟩
          | none => ⟨false, none, some "STRIPE_ERROR"⟩
        else
          ⟨true, some ⟨agent, s, units,
            pyRound4 ((units.toInt : ℚ) * V1.PRICE_PER_UNIT), "pending",
            none⟩, none⟩) :=
      create_usage_charge_gen_validated (V1.is_authorized api) V1.ALLOWED_SERVICES
        V1.PRICE_PER_UNIT st agent s units tok hauth hsvc hinst hpos
    refine ⟨?_, ?_, ?_⟩
    · intro hcfg hint
      rw [h1, if_pos hcfg, hint]
    · intro pid hcfg hint
      rw [h1, if_pos hcfg, hint]
    · intro hcfg
      rw [h1, if_neg (by simp [hcfg])]
  · intro api st agent s units tok hauth hsvc hinst hpos
    have h1 : V2.create_usage_charge api st agent (some s) units tok =
        (if st.configured = true then
          match st.create_intent with
          | some pid =>
            ⟨true, some ⟨agent, s, units,
              pyRound4 ((units.toInt : ℚ) * V2.PRICE_PER_UNIT), "billed",
              some pid⟩, none⟩
          | none => ⟨false, none, some "STRIPE_ERROR"⟩
        else
          ⟨true, some ⟨agent, s, units,
            pyRound4 ((units.toInt : ℚ) * V2.PRICE_PER_UNIT), "pending",
            none⟩, none⟩) :=
      create_usage_charge_gen_validated (V2.is_authorized api) V2.ALLOWED_SERVICES
        V2.PRICE_PER_UNIT st agent s units tok hauth hsvc hinst hpos
    refine ⟨?_, ?_, ?_⟩
    · intro hcfg hint
      rw [h1, if_pos hcfg, hint]
    · intro pid hcfg hint
      rw [h1, if_pos hcfg, hint]
    · intro hcfg
      rw [h1, if_neg (by simp [hcfg])]
  · intro api st agent s units tok hauth hsvc hinst hpos
    have h1 : V3.create_usage_charge api st agent (some s) units tok =
        (if st.configured = true then
          match st.create_intent with
          | some pid =>
            ⟨true, some ⟨agent, s, units,
              pyRound4 ((units.toInt : ℚ) * V3.PRICE_PER_UNIT), "billed",
              some pid⟩, none⟩
          | none => ⟨false, none, some "STRIPE_ERROR"⟩
        else
          ⟨true, some ⟨agent, s, units,
            pyRound4 ((units.toInt : ℚ) * V3.PRICE_PER_UNIT), "pending",
            none⟩, none⟩) :=
      create_usage_charge_gen_validated (V3.is_authorized api) V3.ALLOWED_SERVICES
        V3.PRICE_PER_UNIT st agent s units tok hauth hsvc hinst hpos
    refine ⟨?_, ?_, ?_⟩
    · intro hcfg hint
      rw [h1, if_pos hcfg, hint]
    · intro pid hcfg hint
      rw [h1, if_pos hcfg, hint]
    · intro hcfg
      rw [h1, if_neg (by simp [hcfg])]

/-- Witness for C4: a successful provider call on vector 1 yields a
billed charge carrying the provider's identifier. -/
theorem C4_provider_outcomes_witness :
    V1.create_usage_charge "" ⟨true, some "pi_1"⟩ "agent-1"
        (some "extract_markdown") (.int 2) (some "Bearer t") =
      ⟨true, some ⟨"agent-1", "extract_markdown", .int 2,
        pyRound4 (((PyUnits.int 2).toInt : ℚ) * V1.PRICE_PER_UNIT), "billed",
        some "pi_1"⟩, none⟩ :=
  (C4_provider_outcomes.1 "" ⟨true, some "pi_1"⟩ "agent-1" "extract_markdown"
    (.int 2) (some "Bearer t") (by decide) (by decide) (by decide)
    (by decide)).2.1 "pi_1" rfl rfl

/-- C6: for every unit count that is not a positive integer — zero,
negative, or any non-`int` value — an authorized request on an
allow-listed service returns `INVALID_UNITS` with a null charge. -/
theorem C6_invalid_units :
    (∀ (api : String) (st : StripeCfg) (agent s : String) (units : PyUnits)
        (tok : Option String),
      V1.is_authorized api tok = true →
      V1.ALLOWED_SERVICES.contains s = true →
      (units.isInstanceInt = false ∨ units.toInt ≤ 0) →
      V1.create_usage_charge api st agent (some s) units tok =
        ⟨false, none, some "INVALID_UNITS"⟩) ∧
    (∀ (api : String) (st : StripeCfg) (agent s : String) (units : PyUnits)
        (tok : Option String),
      V2.is_authorized api tok = true →
      V2.ALLOWED_SERVICES.contains s = true →
      (units.isInstanceInt = false ∨ units.toInt ≤ 0) →
      V2.create_usage_charge api st agent (some s) units tok =
        ⟨false, none, some "INVALID_UNITS"⟩) ∧
    (∀ (api : String) (st : StripeCfg) (agent s : String) (units : PyUnits)
        (tok : Option String),
      V3.is_authorized api tok = true →
      V3.ALLOWED_SERVICES.contains s = true →
      (units.isInstanceInt = false ∨ units.toInt ≤ 0) →
      V3.create_usage_charge api st agent (some s) units tok =
        ⟨false, none, some "INVALID_UNITS"⟩) := by
  refine ⟨?_, ?_, ?_⟩ <;>
  · intro api st agent s units tok hauth hsvc hu
    exact create_usage_charge_gen_invalid_units _ _ _ _ _ _ _ _ hauth hsvc hu

/-- Witness for C6: zero units on vector 1. -/
theorem C6_invalid_units_witness :
    V1.create_usage_charge "" ⟨false, none⟩ "agent-1"
        (some "create_usage_charge") (.int 0) (some "Bearer x") =
      ⟨false, none, some "INVALID_UNITS"⟩ :=
  C6_invalid_units.1 "" ⟨false, none⟩ "agent-1" "create_usage_charge" (.int 0)
    (some "Bearer x") (by decide) (by decide) (Or.inr (by decide))

/-- C10: the boolean `True` passed as the unit count passes the
`isinstance(units, int)` check with value 1, so an authorized request on
an allow-listed service (with no provider configured) succeeds with a
charge whose `units` field is `True` and whose amount is
`round(1 * price, 4)`. -/
theorem C10_bool_true_units :
    (∀ (api agent s : String) (tok : Option String),
      V1.is_authorized api tok = true →
      V1.ALLOWED_SERVICES.contains s = true →
      V1.create_usage_charge api ⟨false, none⟩ agent (some s) (.bool true) tok =
        ⟨true, some ⟨agent, s, .bool true,
          pyRound4 ((1 : ℚ) * V1.PRICE_PER_UNIT), "pending", none⟩, none⟩) ∧
    (∀ (api agent s : String) (tok : Option String),
      V2.is_authorized api tok = true →
      V2.ALLOWED_SERVICES.contains s = true →
      V2.create_usage_charge api ⟨false, none⟩ agent (some s) (.bool true) tok =
        ⟨true, some ⟨agent, s, .bool true,
          pyRound4 ((1 : ℚ) * V2.PRICE_PER_UNIT), "pending", none⟩, none⟩) ∧
    (∀ (api agent s : String) (tok : Option String),
      V3.is_authorized api tok = true →
      V3.ALLOWED_SERVICES.contains s = true →
      V3.create_usage_charge api ⟨false, none⟩ agent (some s) (.bool true) tok =
        ⟨true, some ⟨agent, s, .bool true,
          pyRound4 ((1 : ℚ) * V3.PRICE_PER_UNIT), "pending", none⟩, none⟩) ∧
    ((PyUnits.bool true).isInstanceInt = true ∧ 0 < (PyUnits.bool true).toInt) := by
  have hcast : ((PyUnits.bool true).toInt : ℚ) = (1 : ℚ) := by
    simp [PyUnits.toInt]
  refine ⟨?_, ?_, ?_, by decide, by decide⟩
  · intro api agent s tok hauth hsvc
    have h1 : V1.create_usage_charge api ⟨false, none⟩ agent (some s) (.bool true) tok =
        ⟨true, some ⟨agent, s, .bool true,
          pyRound4 (((PyUnits.bool true).toInt : ℚ) * V1.PRICE_PER_UNIT),
          "pending", none⟩, none⟩ :=
      create_usage_charge_gen_validated (V1.is_authorized api) V1.ALLOWED_SERVICES
        V1.PRICE_PER_UNIT ⟨false, none⟩ agent s (.bool true) tok hauth hsvc
        (by decide) (by decide)
    rw [h1, hcast]
  · intro api agent s tok hauth hsvc
    have h1 : V2.create_usage_charge api ⟨false, none⟩ agent (some s) (.bool true) tok =
        ⟨true, some ⟨agent, s, .bool true,
          pyRound4 (((PyUnits.bool true).toInt : ℚ) * V2.PRICE_PER_UNIT),
          "pending", none⟩, none⟩ :=
      create_usage_charge_gen_validated (V2.is_authorized api) V2.ALLOWED_SERVICES
        V2.PRICE_PER_UNIT ⟨false, none⟩ agent s (.bool true) tok hauth hsvc
        (by decide) (by decide)
    rw [h1, hcast]
  · intro api agent s tok hauth hsvc
    have h1 : V3.create_usage_charge api ⟨false, none⟩ agent (some s) (.bool true) tok =
        ⟨true, some ⟨agent, s, .bool true,
          pyRound4 (((PyUnits.bool true).toInt : ℚ) * V3.PRICE_PER_UNIT),
          "pending", none⟩, none⟩ :=
      create_usage_charge_gen_validated (V3.is_authorized api) V3.ALLOWED_SERVICES
        V3.PRICE_PER_UNIT ⟨false, none⟩ agent s (.bool true) tok hauth hsvc
        (by decide) (by decide)
    rw [h1, hcast]

/-- Witness for C10: `True` units billed on vector 1. -/
theorem C10_bool_true_units_witness :
    V1.create_usage_charge "" ⟨false, none⟩ "agent-1"
        (some "create_usage_charge") (.bool true) (some "Bearer x") =
      ⟨true, some ⟨"agent-1", "create_usage_charge", .bool true,
        pyRound4 ((1 : ℚ) * V1.PRICE_PER_UNIT), "pending", none⟩, none⟩ :=
  C10_bool_true_units.1 "" "agent-1" "create_usage_charge" (some "Bearer x")
    (by decide) (by decide)

/-- C5 (amended): in `extract_markdown` and `generate_llm_txt` the
syntactic input check precedes the simulated-failure marker, so the
failure code implies the input passed the syntactic check; in `run_skill`
only the non-string-or-empty part of the payload check precedes the
marker — a payload containing `"BAD"` returns `SKILL_FAILED` even when it
fails the base64 validity check, which runs afterwards. -/
theorem C5_invalid_input_ordering :
    (∀ (api : String) (opts : Option ExtractOptions) (tok : Option String)
        (u : String),
      (V1.extract_markdown api (some u) opts tok).error =
          some "EXTRACTION_FAILED" →
      listStartsWith u.toList "https://".toList = true) ∧
    (∀ (api : String) (tok : Option String) (d : String),
      (V3.generate_llm_txt api (some d) tok).error = some "CRAWL_FAILED" →
      (strContains d "http" = false ∧ strContains d "/" = false ∧
        strContains d " " = false)) ∧
    (∀ (api : String) (sid tok : Option String) (p : String),
      (V2.run_skill api sid (some p) tok).error = some "SKILL_FAILED" →
      (p ≠ "" ∧ strContains p "BAD" = true)) := by
  refine ⟨?_, ?_, ?_⟩
  · intro api opts tok u h
    unfold V1.extract_markdown at h
    repeat' split at h
    all_goals simp_all
  · intro api tok d h
    unfold V3.generate_llm_txt at h
    repeat' split at h
    all_goals simp_all
  · intro api sid tok p h
    unfold V2.run_skill at h
    repeat' split at h
    all_goals simp_all

/-- C5 counterexample: the payload `"BAD!"` fails the base64 validity
check yet `run_skill` reports `SKILL_FAILED`, not `INVALID_PAYLOAD`. -/
theorem C5_counterexample :
    b64decode_validate_ok ("BAD!".toList) = false ∧
    V2.run_skill "" (some "pdf_financials") (some "BAD!") (some "tok") =
      ⟨false, none, some "SKILL_FAILED"⟩ :=
  ⟨by decide, by decide⟩

/-- Witness for C5: the `SKILL_FAILED` outcome on `"BAD!"` implies the
payload is a non-empty string containing the failure marker. -/
theorem C5_invalid_input_ordering_witness :
    ("BAD!" : String) ≠ "" ∧ strContains "BAD!" "BAD" = true :=
  C5_invalid_input_ordering.2.2 "" (some "pdf_financials") (some "tok") "BAD!"
    (by decide)

/-- C8: `publish_listing` returns `INVALID_SERVICE` whenever the service
identifier is not a string or is empty after trimming, even with valid
URLs; otherwise `INVALID_URL` when either URL fails the `https://` check;
otherwise it echoes the listing with `success = true`. -/
theorem C8_publish_listing_contract :
    (∀ (u1 u2 : Option String),
      publish_listing none u1 u2 = ⟨false, none, some "INVALID_SERVICE"⟩) ∧
    (∀ (sid : String) (u1 u2 : Option String),
      pyStrip sid.toList = [] →
      publish_listing (some sid) u1 u2 =
        ⟨false, none, some "INVALID_SERVICE"⟩) ∧
    (∀ (sid : String) (u1 u2 : Option String),
      pyStrip sid.toList ≠ [] →
      (is_https_url u1 = false ∨ is_https_url u2 = false) →
      publish_listing (some sid) u1 u2 = ⟨false, none, some "INVALID_URL"⟩) ∧
    (∀ (sid o l : String),
      pyStrip sid.toList ≠ [] →
      listStartsWith o.toList "https://".toList = true →
      listStartsWith l.toList "https://".toList = true →
      publish_listing (some sid) (some o) (some l) =
        ⟨true, some ⟨sid, o, l⟩, none⟩) := by
  refine ⟨fun u1 u2 => rfl, ?_, ?_, ?_⟩
  · intro sid u1 u2 h
    simp only [publish_listing]
    rw [if_pos h]
  · intro sid u1 u2 h1 h2
    simp only [publish_listing]
    rw [if_neg h1, if_pos h2]
  · intro sid o l h1 h2 h3
    simp only [publish_listing]
    rw [if_neg h1, if_neg (by
      rintro (h | h)
      · rw [show is_https_url (some o) = listStartsWith o.toList "https://".toList
          from rfl, h2] at h
        exact Bool.noConfusion h
      · rw [show is_https_url (some l) = listStartsWith l.toList "https://".toList
          from rfl, h3] at h
        exact Bool.noConfusion h)]

/-- Witness for C8: a whitespace-only service identifier with two valid
URLs still yields `INVALID_SERVICE`. -/
theorem C8_publish_listing_witness :
    publish_listing (some " ") (some "https://a.example/openapi.json")
        (some "https://a.example/llm.txt") =
      ⟨false, none, some "INVALID_SERVICE"⟩ :=
  C8_publish_listing_contract.2.1 " " (some "https://a.example/openapi.json")
    (some "https://a.example/llm.txt") (by decide)

/-- C9: for every input to every public operation of the three services,
the returned record has `success = true` exactly when `error` is null,
and `success = false` exactly when the payload field (result, charge,
listing, markdown/metadata, generated texts) is null. -/
theorem C9_success_error_invariant :
    (∀ (api : String) (url : Option String) (opts : Option ExtractOptions)
        (tok : Option String),
      ((V1.extract_markdown api url opts tok).success = true ↔
        (V1.extract_markdown api url opts tok).error = none) ∧
      ((V1.extract_markdown api url opts tok).success = false ↔
        (V1.extract_markdown api url opts tok).markdown = none) ∧
      ((V1.extract_markdown api url opts tok).success = false ↔
        (V1.extract_markdown api url opts tok).metadata = none)) ∧
    (∀ (api : String) (sid p tok : Option String),
      ((V2.run_skill api sid p tok).success = true ↔
        (V2.run_skill api sid p tok).error = none) ∧
      ((V2.run_skill api sid p tok).success = false ↔
        (V2.run_skill api sid p tok).result = none)) ∧
    (∀ (api : String) (d tok : Option String),
      ((V3.generate_llm_txt api d tok).success = true ↔
        (V3.generate_llm_txt api d tok).error = none) ∧
      ((V3.generate_llm_txt api d tok).success = false ↔
        (V3.generate_llm_txt api d tok).llm_txt = none) ∧
      ((V3.generate_llm_txt api d tok).success = false ↔
        (V3.generate_llm_txt api d tok).llm_full_txt = none)) ∧
    (∀ (api : String) (st : StripeCfg) (agent : String) (sid : Option String)
        (units : PyUnits) (tok : Option String),
      ((V1.create_usage_charge api st agent sid units tok).success = true ↔
        (V1.create_usage_charge api st agent sid units tok).error = none) ∧
      ((V1.create_usage_charge api st agent sid units tok).success = false ↔
        (V1.create_usage_charge api st agent sid units tok).charge = none)) ∧
    (∀ (api : String) (st : StripeCfg) (agent : String) (sid : Option String)
        (units : PyUnits) (tok : Option String),
      ((V2.create_usage_charge api st agent sid units tok).success = true ↔
        (V2.create_usage_charge api st agent sid units tok).error = none) ∧
      ((V2.create_usage_charge api st agent sid units tok).success = false ↔
        (V2.create_usage_charge api st agent sid units tok).charge = none)) ∧
    (∀ (api : String) (st : StripeCfg) (agent : String) (sid : Option String)
        (units : PyUnits) (tok : Option String),
      ((V3.create_usage_charge api st agent sid units tok).success = true ↔
        (V3.create_usage_charge api st agent sid units tok).error = none) ∧
      ((V3.create_usage_charge api st agent sid units tok).success = false ↔
        (V3.create_usage_charge api st agent sid units tok).charge = none)) ∧
    (∀ (sid u1 u2 : Option String),
      ((publish_listing sid u1 u2).success = true ↔
        (publish_listing sid u1 u2).error = none) ∧
      ((publish_listing sid u1 u2).success = false ↔
        (publish_listing sid u1 u2).listing = none)) := by
  refine ⟨?_, ?_, ?_, ?_, ?_, ?_, ?_⟩
  · intro api url opts tok
    unfold V1.extract_markdown
    repeat' split
    all_goals simp
  · intro api sid p tok
    unfold V2.run_skill
    repeat' split
    all_goals simp
  · intro api d tok
    unfold V3.generate_llm_txt
    repeat' split
    all_goals simp
  · intro api st agent sid units tok
    unfold V1.create_usage_charge create_usage_charge_gen
    repeat' split
    all_goals simp
  · intro api st agent sid units tok
    unfold V2.create_usage_charge create_usage_charge_gen
    repeat' split
    all_goals simp
  · intro api st agent sid units tok
    unfold V3.create_usage_charge create_usage_charge_gen
    repeat' split
    all_goals simp
  · intro sid u1 u2
    unfold publish_listing
    repeat' split
    all_goals simp
